import Mathlib

/-!
Verification development for the INSPECTRA dashboard (src/streamlitapp.py).

The script reads five warehouse tables, classifies per-room risk scores with
fixed thresholds, aggregates per-property metrics, and renders a report.
Tabular data is embedded as lists of row structures; numeric scores are
rationals. The Streamlit widgets are side effects; what each widget would
display is collected in an AppView value, and the control flow of the script
(st.stop on an empty property table, uncaught pandas .iloc[0] lookups) is an
StOutcome value.
-/

namespace Inspectra

/-- Row of the PROPERTY_RISK table: id, risk-level label, total risk score. -/
structure PropertyRow where
  property_id : String
  risk_level : String
  total_risk : ℚ
  deriving DecidableEq

/-- Row of the ROOM_RISK table: owning property, room type, numeric score. -/
structure RoomRow where
  property_id : String
  room_type : String
  room_risk_score : ℚ
  deriving DecidableEq

/-- Row of the PROPERTY_SUMMARY table. -/
structure SummaryRow where
  property_id : String
  summary_text : String
  deriving DecidableEq

/-- Row of the ROOM_IMAGES table. -/
structure ImageRow where
  property_id : String
  room_type : String
  image_url : String
  defect_label : String
  defect_confidence : ℚ
  deriving DecidableEq

/-- Row of the BANK_RISK_VIEW table. -/
structure BankRow where
  property_id : String
  bank_decision : String
  deriving DecidableEq

/-- Explainable-AI classification of one room score, from the loop at
src/streamlitapp.py lines 109-122: each branch fixes the reason string and
the severity tier. Returned as (severity, reason). -/
def classifyRoom (score : ℚ) : String × String :=
  if 80 ≤ score then ("HIGH", "Severe structural or safety defect")
  else if 60 ≤ score then ("MEDIUM", "Electrical hazard or dampness detected")
  else if 30 ≤ score then ("LOW", "Minor maintenance or finishing issue")
  else ("SAFE", "No significant defects found")

/-- Heatmap RISK_LEVEL lambda from src/streamlitapp.py lines 95-97. -/
def heatmap_label (x : ℚ) : String :=
  if 80 ≤ x then "High"
  else if 60 ≤ x then "Medium"
  else if 30 ≤ x then "Low"
  else "Safe"

/-- rooms_inspected from line 70: number of ROOM_RISK rows whose
PROPERTY_ID equals the selected id (pandas boolean filter then shape). -/
def rooms_inspected_fn (room_df : List RoomRow) (pid : String) : Nat :=
  (room_df.filter (fun r => r.property_id == pid)).length

/-- confidence from line 71: High when at least three rooms were inspected. -/
def confidence_fn (n : Nat) : String :=
  if 3 ≤ n then "High" else "Medium"

/-- Coverage ratio from line 142: min(rooms_inspected / 5, 1.0) under
Python true division, embedded over the rationals. -/
def coverage_fn (n : Nat) : ℚ :=
  min ((n : ℚ) / 5) 1

/-- room_view from lines 79-82: rows of the selected property, further
restricted to scores of at least 60 when the high-risk checkbox is on. -/
def room_view_fn (room_df : List RoomRow) (pid : String)
    (only_high_risk : Bool) : List RoomRow :=
  let rv := room_df.filter (fun r => r.property_id == pid)
  if only_high_risk then rv.filter (fun r => decide (60 ≤ r.room_risk_score)) else rv

/-- load_df from lines 25-30. The Snowflake call session.sql(query).to_pandas()
is external to this repository and is passed in as runSql, which either yields
the rows or an exception message. On an exception load_df shows the error text
and yields an empty frame; the pair is (frame, displayed error if any). -/
def load_df {α : Type} (runSql : String → Except String (List α))
    (query : String) : List α × Option String :=
  match runSql query with
  | .ok df => (df, none)
  | .error e => ([], some ("Data load failed: " ++ e))

/-- Message of the pandas IndexError raised by .iloc[0] on an empty frame. -/
def pandasIlocErr : String := "single positional indexer is out-of-bounds"

/-- pandas .iloc[0]: first row, raising on an empty selection. -/
def pyIloc0 {α : Type} : List α → Except String α
  | [] => .error pandasIlocErr
  | x :: _ => .ok x

/-- Python int() truncation toward zero, used for the score metric (line 68). -/
def pyInt (q : ℚ) : ℤ :=
  if q < 0 then -((-q).floor) else q.floor

/-- Styling of the plain-language summary, lines 151-156: error box for a
HIGH property, warning for MEDIUM, success otherwise. -/
def summary_style_fn (risk_level : String) : String :=
  if risk_level == "HIGH" then "error"
  else if risk_level == "MEDIUM" then "warning"
  else "success"

/-- Bank signal message, lines 222-228. -/
def bank_message_fn (decision : String) : String :=
  if decision == "LOAN_REJECT" then "Loan not recommended due to safety risks"
  else if decision == "MANUAL_REVIEW" then "Manual review required"
  else "Property suitable for standard loan approval"

/-- Report text from the f-string at lines 163-181, a pure function of the
selected id, the property row, the room count and the confidence label. -/
def report_text (property_id : String) (property_row : PropertyRow)
    (rooms_inspected : Nat) (confidence : String) : String :=
  "\nPROPERTY ID: " ++ property_id ++
  "\n\nOVERALL RISK LEVEL: " ++ property_row.risk_level ++
  "\nTOTAL RISK SCORE: " ++ toString property_row.total_risk ++
  "\n\nINSPECTION COVERAGE:\n- Rooms inspected: " ++ toString rooms_inspected ++
  "\n- Confidence level: " ++ confidence ++
  "\n\nKEY AI FINDINGS:\n- High-risk rooms detected\n" ++
  "- Electrical/damp issues identified\n" ++
  "- Structural safety evaluated using transparent thresholds\n\n" ++
  "RECOMMENDATION:\nImmediate corrective inspection advised for high-risk rooms.\n" ++
  "Preventive maintenance recommended for medium-risk rooms.\n"

/-- Name of the downloadable report artifact, line 186. -/
def report_artifact_name (property_id : String) : String :=
  property_id ++ "_AI_Inspection_Report.txt"

/-- Everything the widgets downstream of the empty-table guard display for
one view render. The trend section uses the real-time clock only for x-axis
dates; the charted values are kept, the dates are not modelled. -/
structure AppView where
  risk_level_metric : String
  total_risk_metric : ℤ
  confidence_metric : String
  rooms_view : List RoomRow
  heatmap_rows : List (String × ℚ × String)
  xai_rows : List (String × ℚ × String × String)
  rooms_count : Nat
  coverage : ℚ
  summary_text_out : String
  summary_style : String
  report_text_out : String
  report_file : String
  images_out : List ImageRow
  bank_message : String
  trend_values : List ℚ
  deriving DecidableEq

/-- Outcome of one run of the script body: an early halt via st.stop after a
warning, an uncaught exception, or a completed render. -/
inductive StOutcome (α : Type) where
  | stopped (msg : String)
  | raised (msg : String)
  | done (view : α)
  deriving DecidableEq

/-- The script body from line 41 on: the st.stop guard on an empty property
table, selection of the property row, aggregation, room view, heatmap and
explainable-AI classification, summary lookup, report, images and bank signal.
The selectbox choices (property id) and the checkbox are parameters; the
sidebar focus selectbox is read by the script but never used in any
computation, so it has no parameter here. -/
def renderMain (property_df : List PropertyRow) (room_df : List RoomRow)
    (summary_df : List SummaryRow) (image_df : List ImageRow)
    (bank_df : List BankRow) (property_id : String)
    (only_high_risk : Bool) : StOutcome AppView :=
  if property_df.isEmpty then
    .stopped "No inspection data available yet."
  else
    match pyIloc0 (property_df.filter (fun r => r.property_id == property_id)) with
    | .error e => .raised e
    | .ok property_row =>
      match pyIloc0 ((summary_df.filter (fun r => r.property_id == property_id)).map
          (fun r => r.summary_text)) with
      | .error e => .raised e
      | .ok stext =>
        match pyIloc0 (bank_df.filter (fun r => r.property_id == property_id)) with
        | .error e => .raised e
        | .ok bank_row =>
          .done {
            risk_level_metric := property_row.risk_level
            total_risk_metric := pyInt property_row.total_risk
            confidence_metric :=
              confidence_fn (rooms_inspected_fn room_df property_id)
            rooms_view := room_view_fn room_df property_id only_high_risk
            heatmap_rows :=
              (room_view_fn room_df property_id only_high_risk).map (fun r =>
                (r.room_type, r.room_risk_score, heatmap_label r.room_risk_score))
            xai_rows :=
              (room_view_fn room_df property_id only_high_risk).map (fun r =>
                (r.room_type, r.room_risk_score, classifyRoom r.room_risk_score))
            rooms_count := rooms_inspected_fn room_df property_id
            coverage := coverage_fn (rooms_inspected_fn room_df property_id)
            summary_text_out := stext
            summary_style := summary_style_fn property_row.risk_level
            report_text_out := report_text property_id property_row
              (rooms_inspected_fn room_df property_id)
              (confidence_fn (rooms_inspected_fn room_df property_id))
            report_file := report_artifact_name property_id
            images_out := image_df.filter (fun r => r.property_id == property_id)
            bank_message := bank_message_fn bank_row.bank_decision
            trend_values := property_df.map (fun r => r.total_risk)
          }

/-- String boolean equality agrees with decidable propositional equality. -/
theorem string_beq_eq (a b : String) : (a == b) = decide (a = b) := by
  by_cases h : a = b <;> simp [h]

/-- C1: for every numeric score s the classifier returns the pair fixed by the
thresholds 80 / 60 / 30, and the boundary scores 0, 29, 30, 59, 60, 79, 80,
100 land in the tiers SAFE, SAFE, LOW, LOW, MEDIUM, MEDIUM, HIGH, HIGH. -/
theorem classifier_thresholds_and_boundaries (s : ℚ) :
    (80 ≤ s → classifyRoom s = ("HIGH", "Severe structural or safety defect")) ∧
    (60 ≤ s ∧ s < 80 → classifyRoom s = ("MEDIUM", "Electrical hazard or dampness detected")) ∧
    (30 ≤ s ∧ s < 60 → classifyRoom s = ("LOW", "Minor maintenance or finishing issue")) ∧
    (s < 30 → classifyRoom s = ("SAFE", "No significant defects found")) ∧
    (classifyRoom 0).1 = "SAFE" ∧ (classifyRoom 29).1 = "SAFE" ∧
    (classifyRoom 30).1 = "LOW" ∧ (classifyRoom 59).1 = "LOW" ∧
    (classifyRoom 60).1 = "MEDIUM" ∧ (classifyRoom 79).1 = "MEDIUM" ∧
    (classifyRoom 80).1 = "HIGH" ∧ (classifyRoom 100).1 = "HIGH" := by
  refine ⟨?_, ?_, ?_, ?_, by decide, by decide, by decide, by decide,
    by decide, by decide, by decide, by decide⟩
  · intro h
    unfold classifyRoom
    rw [if_pos h]
  · rintro ⟨h1, h2⟩
    unfold classifyRoom
    rw [if_neg (not_le.mpr h2), if_pos h1]
  · rintro ⟨h1, h2⟩
    unfold classifyRoom
    rw [if_neg (not_le.mpr (by linarith)), if_neg (not_le.mpr h2), if_pos h1]
  · intro h
    unfold classifyRoom
    rw [if_neg (not_le.mpr (by linarith)), if_neg (not_le.mpr (by linarith)),
      if_neg (not_le.mpr h)]

/-- Witness for C1 at the concrete scores 85, 65, 45 and 5. -/
theorem classifier_thresholds_and_boundaries_witness :
    classifyRoom 85 = ("HIGH", "Severe structural or safety defect") ∧
    classifyRoom 65 = ("MEDIUM", "Electrical hazard or dampness detected") ∧
    classifyRoom 45 = ("LOW", "Minor maintenance or finishing issue") ∧
    classifyRoom 5 = ("SAFE", "No significant defects found") :=
  ⟨(classifier_thresholds_and_boundaries 85).1 (by decide),
    (classifier_thresholds_and_boundaries 65).2.1 ⟨by decide, by decide⟩,
    (classifier_thresholds_and_boundaries 45).2.2.1 ⟨by decide, by decide⟩,
    (classifier_thresholds_and_boundaries 5).2.2.2.1 (by decide)⟩

/-- C2: rooms_inspected is the number of room rows whose property id equals
the selected one, and confidence is High exactly when that count reaches 3,
and Medium otherwise. -/
theorem rooms_inspected_count_and_confidence (room_df : List RoomRow) (pid : String) :
    rooms_inspected_fn room_df pid
      = room_df.countP (fun r => decide (r.property_id = pid)) ∧
    (confidence_fn (rooms_inspected_fn room_df pid) = "High"
      ↔ 3 ≤ rooms_inspected_fn room_df pid) ∧
    (rooms_inspected_fn room_df pid < 3
      → confidence_fn (rooms_inspected_fn room_df pid) = "Medium") := by
  have hp : (fun r : RoomRow => r.property_id == pid)
      = (fun r : RoomRow => decide (r.property_id = pid)) :=
    funext fun r => string_beq_eq _ _
  refine ⟨?_, ?_, ?_⟩
  · rw [List.countP_eq_length_filter, rooms_inspected_fn, hp]
  · by_cases h : 3 ≤ rooms_inspected_fn room_df pid
    · rw [confidence_fn, if_pos h]
      simp [h]
    · rw [confidence_fn, if_neg h]
      simp [h]
  · intro h
    rw [confidence_fn, if_neg (by omega)]

/-- Witness for C2 on a two-row table: one matching row gives count 1 and
confidence Medium. -/
theorem rooms_inspected_count_and_confidence_witness :
    rooms_inspected_fn
        [⟨"P1", "Kitchen", 50⟩, ⟨"P2", "Bathroom", 20⟩] "P1" = 1 ∧
    confidence_fn (rooms_inspected_fn
        [⟨"P1", "Kitchen", 50⟩, ⟨"P2", "Bathroom", 20⟩] "P1") = "Medium" :=
  ⟨by decide,
    (rooms_inspected_count_and_confidence
      [⟨"P1", "Kitchen", 50⟩, ⟨"P2", "Bathroom", 20⟩] "P1").2.2 (by decide)⟩

/-- C3: the coverage ratio is min(n / 5, 1), clamped to exactly 1 whenever
n is at least 5, equal to n / 5 below that, with 7 giving 1 and 2 giving 0.4. -/
theorem coverage_ratio_clamped (n : Nat) :
    coverage_fn n = min ((n : ℚ) / 5) 1 ∧
    (5 ≤ n → coverage_fn n = 1) ∧
    (n < 5 → coverage_fn n = (n : ℚ) / 5) ∧
    coverage_fn 7 = 1 ∧ coverage_fn 2 = 2 / 5 := by
  refine ⟨rfl, ?_, ?_,
    by unfold coverage_fn; rw [min_eq_right (by norm_num)],
    by unfold coverage_fn; rw [min_eq_left (by norm_num)]; norm_num⟩
  · intro h
    have h5 : (5 : ℚ) ≤ (n : ℚ) := by exact_mod_cast h
    unfold coverage_fn
    rw [min_eq_right]
    rw [le_div_iff₀ (by norm_num : (0 : ℚ) < 5)]
    linarith
  · intro h
    have h5 : (n : ℚ) ≤ 5 := by exact_mod_cast Nat.le_of_lt h
    unfold coverage_fn
    rw [min_eq_left]
    rw [div_le_one (by norm_num : (0 : ℚ) < 5)]
    linarith

/-- Witness for C3 at the concrete counts 10 and 2. -/
theorem coverage_ratio_clamped_witness :
    coverage_fn 10 = 1 ∧ coverage_fn 2 = (2 : ℚ) / 5 :=
  ⟨(coverage_ratio_clamped 10).2.1 (by decide),
    (coverage_ratio_clamped 2).2.2.1 (by decide)⟩

/-- C4: when the selected property has no room rows the aggregation is total
and yields count 0, confidence Medium and coverage 0. -/
theorem empty_room_set_aggregates (room_df : List RoomRow) (pid : String)
    (h : room_df.filter (fun r => r.property_id == pid) = []) :
    rooms_inspected_fn room_df pid = 0 ∧
    confidence_fn (rooms_inspected_fn room_df pid) = "Medium" ∧
    coverage_fn (rooms_inspected_fn room_df pid) = 0 := by
  have h0 : rooms_inspected_fn room_df pid = 0 := by
    unfold rooms_inspected_fn
    rw [h]
    rfl
  refine ⟨h0, ?_, ?_⟩
  · rw [h0]
    decide
  · rw [h0]
    unfold coverage_fn
    rw [min_eq_left (by norm_num)]
    norm_num

/-- Witness for C4 on the empty room table. -/
theorem empty_room_set_aggregates_witness :
    rooms_inspected_fn [] "P1" = 0 ∧
    confidence_fn (rooms_inspected_fn [] "P1") = "Medium" ∧
    coverage_fn (rooms_inspected_fn [] "P1") = 0 :=
  empty_room_set_aggregates [] "P1" rfl

/-- C5: a query whose execution raises is caught by load_df, which shows the
error text and returns the empty frame; a successful query's rows are
returned unchanged with no message. -/
theorem load_df_catches_and_passes {α : Type}
    (runSql : String → Except String (List α)) (q : String) :
    (∀ e, runSql q = .error e
      → load_df runSql q = ([], some ("Data load failed: " ++ e))) ∧
    (∀ df, runSql q = .ok df → load_df runSql q = (df, none)) := by
  constructor
  · intro e h
    simp [load_df, h]
  · intro df h
    simp [load_df, h]

/-- Witness for C5: a raising query and a succeeding query over Nat rows. -/
theorem load_df_catches_and_passes_witness :
    load_df (fun _ => (.error "boom" : Except String (List Nat))) "Q"
      = ([], some "Data load failed: boom") ∧
    load_df (fun _ => (.ok [1, 2] : Except String (List Nat))) "Q"
      = ([1, 2], none) :=
  ⟨(load_df_catches_and_passes (fun _ => .error "boom") "Q").1 "boom" rfl,
    (load_df_catches_and_passes (fun _ => .ok [1, 2]) "Q").2 [1, 2] rfl⟩

/-- C6: with an empty property table the script stops right after the warning,
so no downstream view is produced: the outcome is the stopped constructor,
which carries no AppView. -/
theorem empty_property_table_halts (room_df : List RoomRow)
    (summary_df : List SummaryRow) (image_df : List ImageRow)
    (bank_df : List BankRow) (pid : String) (only_high_risk : Bool) :
    renderMain [] room_df summary_df image_df bank_df pid only_high_risk
      = .stopped "No inspection data available yet." := rfl

/-- Upper-casing of a string, character by character, as Python str.upper
does on the ASCII labels involved here. -/
def upperStr (s : String) : String :=
  ⟨s.data.map Char.toUpper⟩

/-- C9: for every score the upper-cased heatmap label equals the severity
tier assigned by the explainable-AI loop: the two threshold classifications
agree up to letter case. -/
theorem heatmap_matches_xai_tier (s : ℚ) :
    upperStr (heatmap_label s) = (classifyRoom s).1 := by
  unfold heatmap_label classifyRoom
  split_ifs <;> decide

/-- A room is tiered MEDIUM or HIGH by the explainable-AI loop exactly when
its score is at least 60. -/
theorem classify_fst_ge60_iff (s : ℚ) :
    ((classifyRoom s).1 = "MEDIUM" ∨ (classifyRoom s).1 = "HIGH") ↔ 60 ≤ s := by
  unfold classifyRoom
  split_ifs with h1 h2 h3
  · exact iff_of_true (Or.inr rfl) (by linarith)
  · exact iff_of_true (Or.inl rfl) h2
  · exact iff_of_false (by rintro (h | h) <;> exact absurd h (by decide)) h2
  · exact iff_of_false (by rintro (h | h) <;> exact absurd h (by decide)) h2

/-- C10: with the high-risk checkbox on, the displayed rooms are exactly the
selected property's rooms of score at least 60 (so MEDIUM-tier rooms are
retained along with HIGH); with it off all the property's rooms remain. -/
theorem high_risk_filter_semantics (room_df : List RoomRow) (pid : String) :
    (∀ r : RoomRow, r ∈ room_view_fn room_df pid true
      ↔ (r ∈ room_df ∧ r.property_id = pid ∧ 60 ≤ r.room_risk_score)) ∧
    room_view_fn room_df pid false
      = room_df.filter (fun r => r.property_id == pid) ∧
    (∀ r : RoomRow, r ∈ room_df → r.property_id = pid →
      ((classifyRoom r.room_risk_score).1 = "MEDIUM"
        ∨ (classifyRoom r.room_risk_score).1 = "HIGH") →
      r ∈ room_view_fn room_df pid true) := by
  refine ⟨?_, rfl, ?_⟩
  · intro r
    simp [room_view_fn, List.mem_filter]
    tauto
  · intro r hmem hpid htier
    have h60 : 60 ≤ r.room_risk_score := (classify_fst_ge60_iff _).mp htier
    simp [room_view_fn, List.mem_filter]
    tauto

/-- Witness for C10: a MEDIUM-tier room (score 65) of the selected property
is retained by the high-risk filter. -/
theorem high_risk_filter_semantics_witness :
    (⟨"P1", "Kitchen", 65⟩ : RoomRow)
      ∈ room_view_fn [⟨"P1", "Kitchen", 65⟩, ⟨"P1", "Hall", 20⟩] "P1" true :=
  (high_risk_filter_semantics [⟨"P1", "Kitchen", 65⟩, ⟨"P1", "Hall", 20⟩] "P1").2.2
    ⟨"P1", "Kitchen", 65⟩ (by decide) rfl (Or.inl (by decide))

/-- C7: when a property id offered by the selectbox has no row in the summary
table, the render raises the pandas iloc IndexError uncaught; likewise when
it has a summary row but no row in the bank-signal table, the render raises
at the bank lookup. -/
theorem missing_secondary_row_raises (property_df : List PropertyRow)
    (room_df : List RoomRow) (summary_df : List SummaryRow)
    (image_df : List ImageRow) (bank_df : List BankRow)
    (pid : String) (ohr : Bool)
    (hsel : pid ∈ property_df.map (fun r => r.property_id)) :
    (summary_df.filter (fun r => r.property_id == pid) = [] →
      renderMain property_df room_df summary_df image_df bank_df pid ohr
        = .raised pandasIlocErr) ∧
    (summary_df.filter (fun r => r.property_id == pid) ≠ [] →
      bank_df.filter (fun r => r.property_id == pid) = [] →
      renderMain property_df room_df summary_df image_df bank_df pid ohr
        = .raised pandasIlocErr) := by
  obtain ⟨r0, hr0, hr0pid⟩ := List.mem_map.mp hsel
  have hfmem : r0 ∈ property_df.filter (fun r => r.property_id == pid) :=
    List.mem_filter.mpr ⟨hr0, by simp [hr0pid]⟩
  have hne : property_df.filter (fun r => r.property_id == pid) ≠ [] :=
    List.ne_nil_of_mem hfmem
  have hpe : property_df.isEmpty = false := by
    cases property_df
    · simp at hr0
    · rfl
  constructor
  · intro hsum
    cases hf : property_df.filter (fun r => r.property_id == pid) with
    | nil => exact absurd hf hne
    | cons a l => simp [renderMain, hpe, hf, hsum, pyIloc0]
  · intro hsum hbank
    cases hf : property_df.filter (fun r => r.property_id == pid) with
    | nil => exact absurd hf hne
    | cons a l =>
      cases hs : summary_df.filter (fun r => r.property_id == pid) with
      | nil => exact absurd hs hsum
      | cons s ss => simp [renderMain, hpe, hf, hs, hbank, pyIloc0]

/-- Witness for C7: a one-property table with an empty summary table, and one
with a summary row but an empty bank table. -/
theorem missing_secondary_row_raises_witness :
    renderMain [⟨"P1", "LOW", 10⟩] [] [] [] [⟨"P1", "LOAN_APPROVE"⟩] "P1" false
      = .raised pandasIlocErr ∧
    renderMain [⟨"P1", "LOW", 10⟩] [] [⟨"P1", "All good"⟩] [] [] "P1" false
      = .raised pandasIlocErr :=
  ⟨(missing_secondary_row_raises [⟨"P1", "LOW", 10⟩] [] [] []
      [⟨"P1", "LOAN_APPROVE"⟩] "P1" false (by decide)).1 rfl,
    (missing_secondary_row_raises [⟨"P1", "LOW", 10⟩] [] [⟨"P1", "All good"⟩] []
      [] "P1" false (by decide)).2 (by decide) rfl⟩

/-- Report file name of a completed render, for stating the artifact-name
property without destructuring the outcome. -/
def doneReportFile : StOutcome AppView → Option String
  | .done v => some v.report_file
  | _ => none

/-- C8: the report text is a pure function of the selected id, the property
row, the room count and the confidence label, so identical inputs give
byte-identical text; and every completed render names its download artifact
by appending the fixed suffix to the property id. -/
theorem report_generation_deterministic (property_df : List PropertyRow)
    (room_df : List RoomRow) (summary_df : List SummaryRow)
    (image_df : List ImageRow) (bank_df : List BankRow)
    (pid : String) (ohr : Bool) (row : PropertyRow)
    (n : Nat) (conf : String) :
    report_text pid row n conf = report_text pid row n conf ∧
    (∀ v : AppView,
      renderMain property_df room_df summary_df image_df bank_df pid ohr
        = .done v →
      v.report_file = pid ++ "_AI_Inspection_Report.txt") := by
  refine ⟨rfl, ?_⟩
  intro v h
  unfold renderMain at h
  split at h
  · exact StOutcome.noConfusion h
  · split at h
    · exact StOutcome.noConfusion h
    · split at h
      · exact StOutcome.noConfusion h
      · split at h
        · exact StOutcome.noConfusion h
        · cases h
          rfl

/-- Witness for C8 on a concrete one-property database whose render
completes. -/
theorem report_generation_deterministic_witness :
    report_text "P1" ⟨"P1", "LOW", 10⟩ 0 "Medium"
      = report_text "P1" ⟨"P1", "LOW", 10⟩ 0 "Medium" ∧
    doneReportFile (renderMain [⟨"P1", "LOW", 10⟩] [] [⟨"P1", "All good"⟩] []
        [⟨"P1", "LOAN_APPROVE"⟩] "P1" false)
      = some "P1_AI_Inspection_Report.txt" :=
  ⟨(report_generation_deterministic [⟨"P1", "LOW", 10⟩] [] [⟨"P1", "All good"⟩]
      [] [⟨"P1", "LOAN_APPROVE"⟩] "P1" false ⟨"P1", "LOW", 10⟩ 0 "Medium").1,
    congrArg some
      ((report_generation_deterministic [⟨"P1", "LOW", 10⟩] []
        [⟨"P1", "All good"⟩] [] [⟨"P1", "LOAN_APPROVE"⟩] "P1" false
        ⟨"P1", "LOW", 10⟩ 0 "Medium").2 _ rfl)⟩

end Inspectra
